import Mathlib

/-
Verification of the `AtDir` directory-handle wrapper (src/lib.rs).

Modelling conventions:
  * The operating system is an external environment.  Each wrapper function is
    therefore embedded twice, where relevant:
      - a *trace* function giving the ordered list of observable events the
        wrapper produces (the libc call it performs and the descriptor closes
        produced by Rust ownership, i.e. the `Drop` impl that runs
        `libc::close(self.root)`), and
      - a *result* function giving the returned `io::Result`, parameterized by
        the value the OS call reported (its return value and, where the code
        inspects it, the kind of `io::Error::last_os_error()`).
  * Descriptors are `Int` (C `c_int`); reported byte counts are `Int`
    (C `ssize_t`); paths are the `String`s handed to libc.
  * Trace order follows Rust semantics: arguments evaluate left to right; a
    by-value parameter that goes out of scope inside a callee is dropped there;
    a temporary produced inside a statement is dropped at the end of that
    statement; a function's own by-value `self` is dropped when the body ends.
-/

/-- Observable events: the libc calls the wrapper performs, and the
descriptor closes produced by ownership transfer (`Drop`). -/
inductive Event where
  | close (fd : Int)
  | sysOpen (path : String) (flags : Nat)
  | openat (dirfd : Int) (path : String) (flags : Int) (mode : Int)
  | fstatat (dirfd : Int) (path : String) (flags : Int)
  | faccessat (dirfd : Int) (path : String) (mode : Int) (flags : Int)
  | fchmodat (dirfd : Int) (path : String) (mode : Nat) (flags : Int)
  | fchownat (dirfd : Int) (path : String) (owner : Nat) (group : Nat) (flags : Int)
  | mkdirat (dirfd : Int) (path : String) (mode : Nat)
  | linkat (olddirfd : Int) (oldpath : String) (newdirfd : Int) (newpath : String) (flags : Int)
  | symlinkat (target : String) (newdirfd : Int) (linkpath : String)
  | readlinkat (dirfd : Int) (path : String) (bufcap : Nat)
  | statx (dirfd : Int) (path : String) (flags : Int) (mask : Nat)
  | unlinkat (dirfd : Int) (path : String) (flags : Int)
  | utimensat (dirfd : Int) (path : String) (sec : Int) (nsec : Int) (flag : Int)
  | renameat (olddirfd : Int) (oldpath : String) (newdirfd : Int) (newpath : String)
deriving DecidableEq

/-- Kind of `io::Error::last_os_error()`, as far as the code inspects it
(`AtDir::access` tests for `io::ErrorKind::PermissionDenied`). -/
inductive ErrorKind where
  | permissionDenied
  | notFound
  | other
deriving DecidableEq

/-- Errors the wrapper returns: a propagated OS error
(`io::Error::last_os_error()`), or the one error the layer synthesizes itself
(`io::Error::new(io::ErrorKind::InvalidInput, ..)`). -/
inductive AtErr where
  | os (kind : ErrorKind)
  | invalidInput (msg : String)
deriving DecidableEq

/-- The `cbuffer::RxBuffer` collaborator: `cap` is the capacity reported by
`as_c_char()`/`as_c_void()`; `written` is the byte region after the OS call
wrote into it.  `rx_done(n)` finalizes the buffer into a slice of `n` bytes. -/
structure RxBuffer where
  cap : Nat
  written : List Nat
deriving DecidableEq

def RxBuffer.rxDone (b : RxBuffer) (n : Nat) : List Nat := b.written.take n

/-- `pub struct AtDir { root: c_int }` — the sole field, set once in `new`. -/
structure AtDir where
  root : Int
deriving DecidableEq

/-- Linux `O_DIRECTORY`. -/
def O_DIRECTORY : Nat := 0o200000

/-- Linux `O_CLOEXEC`. -/
def O_CLOEXEC : Nat := 0o2000000

/-- `Drop for AtDir`: calls `libc::close(self.root)` once. -/
def AtDir.dropTrace (h : AtDir) : List Event := [Event.close h.root]

/-- `Drop for AtDir`, result side: the body is
`unsafe { libc::close(self.root); }` — an expression statement, so the return
value of `close` (whatever it is) is discarded and `drop` returns unit. -/
def AtDir.dropRun (h : AtDir) (closeRet : Int) : Unit × List Event :=
  ((), [Event.close h.root])

/-- `AtDir::new`: the one libc call it makes, with its exact flag argument
`libc::O_DIRECTORY | libc::O_CLOEXEC`. -/
def AtDir.newTrace (path : String) : List Event :=
  [Event.sysOpen path (Nat.lor O_DIRECTORY O_CLOEXEC)]

/-- `AtDir::new`, result side, parameterized by the `fd` that `libc::open`
returned: `if fd < 0` the OS error is returned, else `Ok(AtDir { root: fd })`. -/
def AtDir.new (fd : Int) (lastError : ErrorKind) : Except AtErr AtDir :=
  if fd < 0 then Except.error (AtErr.os lastError) else Except.ok ⟨fd⟩

/-- `AtDir::open(self, pathname, flags, mode)`: `openat` using `self.root`,
then `self` is dropped at the end of the body. -/
def AtDir.openTrace (h : AtDir) (pathname : String) (flags mode : Int) : List Event :=
  [Event.openat h.root pathname flags mode, Event.close h.root]

/-- `AtDir::close(self, fd)`: closes the caller-supplied raw `fd`, then `self`
is dropped at the end of the body. -/
def AtDir.closeTrace (h : AtDir) (fd : Int) : List Event :=
  [Event.close fd, Event.close h.root]

/-- `AtDir::stat(self, pathname, flags)`. -/
def AtDir.statTrace (h : AtDir) (pathname : String) (flags : Int) : List Event :=
  [Event.fstatat h.root pathname flags, Event.close h.root]

/-- `AtDir::access(self, pathname, mode, flags)`. -/
def AtDir.accessTrace (h : AtDir) (pathname : String) (mode flags : Int) : List Event :=
  [Event.faccessat h.root pathname mode flags, Event.close h.root]

/-- `AtDir::access`, result side, parameterized by the `faccessat` return value
and the kind of `last_os_error()`: on `-1` a `PermissionDenied` error kind is
converted to `Ok(false)`, any other kind propagates; otherwise `Ok(true)`. -/
def AtDir.access (pathname : String) (osSuccess : Int) (lastError : ErrorKind) :
    Except AtErr Bool :=
  if osSuccess = -1 then
    if lastError = ErrorKind.permissionDenied then Except.ok false
    else Except.error (AtErr.os lastError)
  else Except.ok true

/-- `AtDir::chmod(self, pathname, mode, flags)`. -/
def AtDir.chmodTrace (h : AtDir) (pathname : String) (mode : Nat) (flags : Int) : List Event :=
  [Event.fchmodat h.root pathname mode flags, Event.close h.root]

/-- `AtDir::chown(self, pathname, owner, group, flags)`. -/
def AtDir.chownTrace (h : AtDir) (pathname : String) (owner group : Nat) (flags : Int) :
    List Event :=
  [Event.fchownat h.root pathname owner group flags, Event.close h.root]

/-- `AtDir::mkdir(self, pathname, mode)`. -/
def AtDir.mkdirTrace (h : AtDir) (pathname : String) (mode : Nat) : List Event :=
  [Event.mkdirat h.root pathname mode, Event.close h.root]

/-- `AtDir::link(self, oldpath, newdir, newpath, flags)`: `newdir` is an
`Option<&AtDir>` — a shared borrow, so only `newdir.root` is read; the
referenced handle is NOT dropped by this call.  With `None` the code uses
`self.root` for the new-directory argument as well.  `self` is dropped at the
end of the body, after `linkat`. -/
def AtDir.linkTrace (h : AtDir) (oldpath : String) (newdir : Option AtDir)
    (newpath : String) (flags : Int) : List Event :=
  match newdir with
  | some nr => [Event.linkat h.root oldpath nr.root newpath flags, Event.close h.root]
  | none => [Event.linkat h.root oldpath h.root newpath flags, Event.close h.root]

/-- `AtDir::symlink(self, linkpath, target)`: calls
`libc::symlinkat(target, self.root, linkpath)` — the wrapper's two path
arguments are passed to the OS call in reversed order. -/
def AtDir.symlinkTrace (h : AtDir) (linkpath target : String) : List Event :=
  [Event.symlinkat target h.root linkpath, Event.close h.root]

/-- `AtDir::readlink(self, pathname, buf)`, trace side. -/
def AtDir.readlinkTrace (h : AtDir) (pathname : String) (bufcap : Nat) : List Event :=
  [Event.readlinkat h.root pathname bufcap, Event.close h.root]

/-- `AtDir::readlink`, result side, parameterized by the `readlinkat` return
value `osRet`.  In the source, `let len = libc::readlinkat(..)` SHADOWS the
capacity binding `let (ptr, len) = buf.as_c_char()`; the match arm
`size if size == len` therefore binds `size` to the scrutinee `len` (the
syscall result) and compares it with that same shadowed `len` — the guard
compares the result with itself and never consults `buf.cap`.  That guard is
embedded literally as `osRet = osRet` below. -/
def AtDir.readlink (pathname : String) (buf : RxBuffer) (osRet : Int)
    (lastError : ErrorKind) : Except AtErr (List Nat) :=
  if osRet = -1 then Except.error (AtErr.os lastError)
  else if osRet = osRet then Except.error (AtErr.invalidInput "Buffer too small")
  else Except.ok (buf.rxDone osRet.toNat)

/-- `AtDir::statx(self, pathname, flags, mask)`. -/
def AtDir.statxTrace (h : AtDir) (pathname : String) (flags : Int) (mask : Nat) : List Event :=
  [Event.statx h.root pathname flags mask, Event.close h.root]

/-- `AtDir::unlink(self, pathname, flags)`. -/
def AtDir.unlinkTrace (h : AtDir) (pathname : String) (flags : Int) : List Event :=
  [Event.unlinkat h.root pathname flags, Event.close h.root]

/-- `AtDir::utimens(self, path, times, flag)`. -/
def AtDir.utimensTrace (h : AtDir) (path : String) (sec nsec : Int) (flag : Int) : List Event :=
  [Event.utimensat h.root path sec nsec flag, Event.close h.root]

/-- `AtDir::fgetxattr(filedes, name, value)`, result side, parameterized by the
`libc::fgetxattr` return value: `-1` propagates the OS error; any other
reported count is passed straight to `rx_done` with no capacity comparison. -/
def AtDir.fgetxattr (filedes : Int) (name : String) (value : RxBuffer) (osRet : Int)
    (lastError : ErrorKind) : Except AtErr (List Nat) :=
  if osRet = -1 then Except.error (AtErr.os lastError)
  else Except.ok (value.rxDone osRet.toNat)

/-- `AtDir::flistxattr(filedes, list)`, result side: same shape as
`fgetxattr` — no capacity comparison. -/
def AtDir.flistxattr (filedes : Int) (list : RxBuffer) (osRet : Int)
    (lastError : ErrorKind) : Except AtErr (List Nat) :=
  if osRet = -1 then Except.error (AtErr.os lastError)
  else Except.ok (list.rxDone osRet.toNat)

/-- `AtDir::rename(self, oldname, newroot, newname)`.  The third `renameat`
argument is `newroot.unwrap_or(self).root`.  Arguments evaluate left to right:
`self.root` is copied first; then `Option::unwrap_or` consumes BOTH the option
and the default `self` — in the `Some` branch the unused default goes out of
scope inside `unwrap_or`, so `self`'s `Drop` (close of `self.root`) runs
BEFORE `renameat` is invoked.  The handle `unwrap_or` returns is a temporary
dropped at the end of the statement, after `renameat`. -/
def AtDir.renameTrace (h : AtDir) (oldname : String) (newroot : Option AtDir)
    (newname : String) : List Event :=
  match newroot with
  | some nr => [Event.close h.root, Event.renameat h.root oldname nr.root newname,
      Event.close nr.root]
  | none => [Event.renameat h.root oldname h.root newname, Event.close h.root]

/-- Number of `close fd` events in a trace. -/
def countClose (fd : Int) : List Event → Nat
  | [] => 0
  | Event.close g :: rest => (if g = fd then 1 else 0) + countClose fd rest
  | _ :: rest => countClose fd rest

/-- C1: due to the shadowing of the capacity binding in `AtDir::readlink`, the
truncation guard compares the syscall's reported byte count with itself, so
EVERY nonnegative reported count — even one strictly below the buffer's
capacity — yields the synthesized "Buffer too small" error; the `Ok` arm is
unreachable.  This contradicts the claim that a count strictly below capacity
returns `Ok` with a slice of that many bytes. -/
theorem readlink_truncation_guard_always_fires (pathname : String) (buf : RxBuffer)
    (r : Int) (k : ErrorKind) (h : 0 ≤ r) :
    AtDir.readlink pathname buf r k = Except.error (AtErr.invalidInput "Buffer too small") := by
  unfold AtDir.readlink
  rw [if_neg (by omega), if_pos rfl]

/-- C1 witness: the spec's own boundary example — target of 6 bytes read into a
buffer of capacity 7 (count 6 strictly below capacity 7, so the claim demands
`Ok` with the 6 bytes) — still produces the "Buffer too small" error. -/
theorem readlink_truncation_guard_always_fires_witness :
    0 ≤ (6 : Int) ∧
    AtDir.readlink "link" ⟨7, [116, 97, 114, 103, 101, 116]⟩ 6 ErrorKind.other
      = Except.error (AtErr.invalidInput "Buffer too small") :=
  ⟨by norm_num,
   readlink_truncation_guard_always_fires "link" ⟨7, [116, 97, 114, 103, 101, 116]⟩ 6
     ErrorKind.other (by norm_num)⟩

/-- C2: when `rename` is given a destination handle, the source handle is
dropped inside `Option::unwrap_or` while the third `renameat` argument is being
evaluated, so the source descriptor (3) is closed BEFORE the `renameat` call —
the call then receives an already-closed descriptor.  This contradicts the
claim that a consumed handle's descriptor is closed only after the OS call. -/
theorem rename_dest_closes_source_before_call :
    AtDir.renameTrace ⟨3⟩ "a" (some ⟨4⟩) "b"
      = [Event.close 3, Event.renameat 3 "a" 4 "b", Event.close 4] := rfl

/-- C3 counterexample: `link` with a supplied destination handle (fd 4) emits
no close of that descriptor — the destination handle is not consumed, contrary
to the claim. -/
theorem link_dest_close_missing_cex :
    Event.close 4 ∉ AtDir.linkTrace ⟨3⟩ "old" (some ⟨4⟩) "new" 0 := by
  simp [AtDir.linkTrace]

/-- C3 (amended): `link`'s destination handle parameter is a shared borrow
(`Option<&AtDir>`), not an owned value: the call reads its descriptor as the
destination resolution base but never closes it, so the destination handle
remains live and usable after `link` returns. -/
theorem link_dest_handle_borrowed (h nr : AtDir) (oldp newp : String) (flags : Int)
    (hne : nr.root ≠ h.root) :
    AtDir.linkTrace h oldp (some nr) newp flags
      = [Event.linkat h.root oldp nr.root newp flags, Event.close h.root]
    ∧ Event.close nr.root ∉ AtDir.linkTrace h oldp (some nr) newp flags := by
  refine ⟨rfl, ?_⟩
  simp [AtDir.linkTrace, hne]

/-- C3 witness: concrete handles with distinct descriptors 3 and 4. -/
theorem link_dest_handle_borrowed_witness :
    (AtDir.mk 4).root ≠ (AtDir.mk 3).root
    ∧ (AtDir.linkTrace ⟨3⟩ "old" (some ⟨4⟩) "new" 7
        = [Event.linkat 3 "old" 4 "new" 7, Event.close 3]
      ∧ Event.close 4 ∉ AtDir.linkTrace ⟨3⟩ "old" (some ⟨4⟩) "new" 7) :=
  ⟨by decide, link_dest_handle_borrowed ⟨3⟩ ⟨4⟩ "old" "new" 7 (by decide)⟩

/-- C4: `access` returns `Ok(false)` exactly when the OS call failed (`-1`) and
the last OS error kind is permission-denied; it returns `Ok(true)` whenever the
call did not fail; any other failure propagates the OS error. -/
theorem access_permission_denied_mapping (p : String) (r : Int) (k : ErrorKind) :
    (AtDir.access p r k = Except.ok false ↔ r = -1 ∧ k = ErrorKind.permissionDenied)
    ∧ (r ≠ -1 → AtDir.access p r k = Except.ok true)
    ∧ (r = -1 → k ≠ ErrorKind.permissionDenied →
        AtDir.access p r k = Except.error (AtErr.os k)) := by
  unfold AtDir.access
  split_ifs with h1 h2 <;> simp_all

/-- C4 witness: permission-denied maps to `false`, success to `true`, and a
not-found failure to an error rather than `false`. -/
theorem access_permission_denied_mapping_witness :
    AtDir.access "f" (-1) ErrorKind.permissionDenied = Except.ok false
    ∧ AtDir.access "f" 0 ErrorKind.other = Except.ok true
    ∧ AtDir.access "f" (-1) ErrorKind.notFound = Except.error (AtErr.os ErrorKind.notFound) :=
  ⟨(access_permission_denied_mapping "f" (-1) ErrorKind.permissionDenied).1.mpr ⟨rfl, rfl⟩,
   (access_permission_denied_mapping "f" 0 ErrorKind.other).2.1 (by norm_num),
   (access_permission_denied_mapping "f" (-1) ErrorKind.notFound).2.2 rfl (by decide)⟩

/-- C5: with the optional destination handle omitted (`None`), both `link` and
`rename` pass the source handle's descriptor as BOTH the source and the
destination resolution base of the single underlying OS call. -/
theorem link_rename_default_dest_is_source (h : AtDir) (oldp newp : String) (flags : Int) :
    AtDir.linkTrace h oldp none newp flags
      = [Event.linkat h.root oldp h.root newp flags, Event.close h.root]
    ∧ AtDir.renameTrace h oldp none newp
      = [Event.renameat h.root oldp h.root newp, Event.close h.root] :=
  ⟨rfl, rfl⟩

/-- C6: `symlink(handle, linkpath, target)` invokes the OS call with the
arguments reversed — `target` as the link content (first OS argument) and
`linkpath` as the entry created relative to the handle's descriptor. -/
theorem symlink_argument_order_swapped (h : AtDir) (linkpath target : String) :
    AtDir.symlinkTrace h linkpath target
      = [Event.symlinkat target h.root linkpath, Event.close h.root] := rfl

/-- C7: constructing a handle opens the path with exactly
`O_DIRECTORY | O_CLOEXEC`; a negative returned descriptor yields the OS error,
and otherwise the handle holds exactly the descriptor the OS returned. -/
theorem new_flags_and_result (p : String) (fd : Int) (k : ErrorKind) :
    AtDir.newTrace p = [Event.sysOpen p (Nat.lor O_DIRECTORY O_CLOEXEC)]
    ∧ (fd < 0 → AtDir.new fd k = Except.error (AtErr.os k))
    ∧ (0 ≤ fd → AtDir.new fd k = Except.ok ⟨fd⟩) := by
  refine ⟨rfl, fun hfd => ?_, fun hfd => ?_⟩
  · simp [AtDir.new, hfd]
  · simp [AtDir.new, not_lt.mpr hfd]

/-- C7 witness: a failed open (fd -1) and a successful open (fd 3). -/
theorem new_flags_and_result_witness :
    AtDir.newTrace "d" = [Event.sysOpen "d" (Nat.lor O_DIRECTORY O_CLOEXEC)]
    ∧ AtDir.new (-1) ErrorKind.notFound = Except.error (AtErr.os ErrorKind.notFound)
    ∧ AtDir.new 3 ErrorKind.notFound = Except.ok ⟨3⟩ :=
  ⟨(new_flags_and_result "d" (-1) ErrorKind.notFound).1,
   (new_flags_and_result "d" (-1) ErrorKind.notFound).2.1 (by norm_num),
   (new_flags_and_result "d" 3 ErrorKind.notFound).2.2 (by norm_num)⟩

/-- C8: releasing a handle closes its descriptor exactly once, on every
release path — scope exit (`drop`), and consumption by each of the fifteen
relative operations, in every variant (for distinct descriptors: the raw fd
passed to `close`, and each of the two rename handles once) — and the result
of the `close` call is discarded: `dropRun` returns unit whatever `close`
reported. -/
theorem release_closes_exactly_once (h nr : AtDir) (p q : String) (a b : Int)
    (mode owner group mask cap : Nat) (sec nsec : Int) (r r' : Int)
    (hne : nr.root ≠ h.root) (hfd : a ≠ h.root) :
    AtDir.dropRun h r = ((), [Event.close h.root])
    ∧ AtDir.dropRun h r = AtDir.dropRun h r'
    ∧ countClose h.root (AtDir.dropTrace h) = 1
    ∧ countClose h.root (AtDir.openTrace h p a b) = 1
    ∧ countClose h.root (AtDir.closeTrace h a) = 1
    ∧ countClose h.root (AtDir.statTrace h p a) = 1
    ∧ countClose h.root (AtDir.accessTrace h p a b) = 1
    ∧ countClose h.root (AtDir.chmodTrace h p mode a) = 1
    ∧ countClose h.root (AtDir.chownTrace h p owner group a) = 1
    ∧ countClose h.root (AtDir.mkdirTrace h p mode) = 1
    ∧ countClose h.root (AtDir.linkTrace h p none q a) = 1
    ∧ countClose h.root (AtDir.linkTrace h p (some nr) q a) = 1
    ∧ countClose h.root (AtDir.symlinkTrace h p q) = 1
    ∧ countClose h.root (AtDir.readlinkTrace h p cap) = 1
    ∧ countClose h.root (AtDir.statxTrace h p a mask) = 1
    ∧ countClose h.root (AtDir.unlinkTrace h p a) = 1
    ∧ countClose h.root (AtDir.utimensTrace h p sec nsec a) = 1
    ∧ countClose h.root (AtDir.renameTrace h p none q) = 1
    ∧ countClose h.root (AtDir.renameTrace h p (some nr) q) = 1
    ∧ countClose nr.root (AtDir.renameTrace h p (some nr) q) = 1 := by
  have hne' : h.root ≠ nr.root := fun hh => hne hh.symm
  refine ⟨rfl, rfl, ?_, ?_, ?_, ?_, ?_, ?_, ?_, ?_, ?_, ?_, ?_, ?_, ?_, ?_, ?_, ?_, ?_, ?_⟩ <;>
    simp [countClose, AtDir.dropTrace, AtDir.openTrace, AtDir.closeTrace, AtDir.statTrace,
      AtDir.accessTrace, AtDir.chmodTrace, AtDir.chownTrace, AtDir.mkdirTrace,
      AtDir.linkTrace, AtDir.symlinkTrace, AtDir.readlinkTrace, AtDir.statxTrace,
      AtDir.unlinkTrace, AtDir.utimensTrace, AtDir.renameTrace, hne, hne', hfd]

/-- C8 witness: concrete handles with descriptors 3 and 4, and raw fd 9. -/
theorem release_closes_exactly_once_witness :
    (AtDir.mk 4).root ≠ (AtDir.mk 3).root ∧ (9 : Int) ≠ (AtDir.mk 3).root
    ∧ AtDir.dropRun ⟨3⟩ (-1) = ((), [Event.close 3]) :=
  ⟨by decide, by decide,
   (release_closes_exactly_once ⟨3⟩ ⟨4⟩ "a" "b" 9 0 0 0 0 0 0 0 0 (-1) 0
      (by decide) (by decide)).1⟩

/-- C10: `fgetxattr` and `flistxattr` perform no truncation check: every
nonnegative reported count — including one equal to the buffer's capacity —
is finalized via `rx_done` into a slice of exactly that many bytes, and the
result never depends on the buffer's capacity. -/
theorem xattr_reads_skip_truncation_check (filedes : Int) (name : String)
    (c c' : Nat) (d : List Nat) (r : Int) (k : ErrorKind)
    (h : 0 ≤ r) (hlen : r.toNat ≤ d.length) :
    AtDir.fgetxattr filedes name ⟨c, d⟩ r k = Except.ok (d.take r.toNat)
    ∧ AtDir.flistxattr filedes ⟨c, d⟩ r k = Except.ok (d.take r.toNat)
    ∧ AtDir.fgetxattr filedes name ⟨c, d⟩ r k = AtDir.fgetxattr filedes name ⟨c', d⟩ r k
    ∧ AtDir.flistxattr filedes ⟨c, d⟩ r k = AtDir.flistxattr filedes ⟨c', d⟩ r k
    ∧ (d.take r.toNat).length = r.toNat := by
  have hne : r ≠ -1 := by omega
  refine ⟨?_, ?_, ?_, ?_, ?_⟩ <;>
    simp [AtDir.fgetxattr, AtDir.flistxattr, RxBuffer.rxDone, hne, List.length_take,
      Nat.min_eq_left hlen]

/-- C10 witness: a reported count of 3 equal to the buffer's capacity 3 is
returned as a 3-byte slice, not rejected. -/
theorem xattr_reads_skip_truncation_check_witness :
    0 ≤ (3 : Int) ∧ (3 : Int).toNat ≤ [10, 20, 30].length
    ∧ AtDir.fgetxattr 9 "user.x" ⟨3, [10, 20, 30]⟩ 3 ErrorKind.other
        = Except.ok [10, 20, 30] :=
  ⟨by norm_num, by norm_num,
   (xattr_reads_skip_truncation_check 9 "user.x" 3 5 [10, 20, 30] 3 ErrorKind.other
      (by norm_num) (by norm_num)).1⟩
